import Mathlib

/-!
Shallow embedding of the Camply landing-page front-end:
the theme types, the session gate, the Navbar, the HeroSection,
and the provider composition of AppProviders / RootLayout.
-/

/-- Theme mode as used by the theme provider: `light`, `dark`, or `system`
(the strings passed to ThemeProvider in AppProviders). -/
inductive Theme where
  | light
  | dark
  | system
deriving DecidableEq, Repr

/-- Modelled from the spec: the theme resolution performed by the
ThemeProvider wrapper and the underlying theme-context library (neither is
present under src/). A concrete mode resolves to itself; `system` resolves
to the host environment scheme signal. -/
def resolveTheme (mode : Theme) (systemTheme : Theme) : Theme :=
  match mode with
  | .system => systemTheme
  | .light => .light
  | .dark => .dark

/-- Modelled from the spec: parsing of a persisted/explicit mode value by the
theme layer (not present under src/). Invalid values fail closed to
`system`. -/
def parseThemeMode (s : String) : Theme :=
  if s = "light" then .light
  else if s = "dark" then .dark
  else .system

/-- The two mutually exclusive render slots exposed by the identity/session
provider (the spec's tagged union SessionView = SignedIn | SignedOut). -/
inductive SessionView where
  | signedIn
  | signedOut
deriving DecidableEq, Repr

/-- Raw outcome of the external session check: a verified answer, or a
failure (timeout / service unreachable). -/
inductive SessionResult where
  | verified (signedIn : Bool)
  | failed
deriving DecidableEq, Repr

/-- Modelled from the spec: the identity/session provider maps the external
check result to a view, failing closed — only a verified signed-in session
yields the signed-in slot; everything else is signed-out. -/
def sessionView : SessionResult → SessionView
  | .verified true => .signedIn
  | .verified false => .signedOut
  | .failed => .signedOut

/-- Rendered markup: JSX-like nodes. Widgets delegated to external services
(UserButton, SignInButton, SignUpButton, ToggleTheme) are opaque marker
nodes; `seq` is adjacency of siblings and `nil` an empty slot. -/
inductive Node where
  | text (s : String)
  | elem (tag : String) (className : String) (child : Node)
  | seq (a b : Node)
  | nil
  | userButton
  | toggleTheme
  | signInButton (child : Node)
  | signUpButton (child : Node)
  | button (variant : String) (size : String) (child : Node)
deriving DecidableEq, Repr

/-- The identity provider's signed-in gate: renders its child exactly when
the session view is signed-in. -/
def SignedIn (v : SessionView) (child : Node) : Node :=
  match v with
  | .signedIn => child
  | .signedOut => .nil

/-- The identity provider's signed-out gate: renders its child exactly when
the session view is signed-out. -/
def SignedOut (v : SessionView) (child : Node) : Node :=
  match v with
  | .signedIn => .nil
  | .signedOut => child

/-- Number of nodes in the tree satisfying `p`. -/
def Node.count (p : Node → Bool) : Node → Nat
  | .text s => if p (.text s) then 1 else 0
  | .elem t c child => (if p (.elem t c child) then 1 else 0) + child.count p
  | .seq a b => (if p (.seq a b) then 1 else 0) + a.count p + b.count p
  | .nil => if p .nil then 1 else 0
  | .userButton => if p .userButton then 1 else 0
  | .toggleTheme => if p .toggleTheme then 1 else 0
  | .signInButton child => (if p (.signInButton child) then 1 else 0) + child.count p
  | .signUpButton child => (if p (.signUpButton child) then 1 else 0) + child.count p
  | .button v s child => (if p (.button v s child) then 1 else 0) + child.count p

def isUserButton : Node → Bool
  | .userButton => true
  | _ => false

def isSignInButton : Node → Bool
  | .signInButton _ => true
  | _ => false

def isSignUpButton : Node → Bool
  | .signUpButton _ => true
  | _ => false

def isToggleTheme : Node → Bool
  | .toggleTheme => true
  | _ => false

def isText (s : String) : Node → Bool
  | .text t => t = s
  | _ => false

set_option linter.unusedVariables false in
/-- src/unnamed/part_001 (Navbar.tsx): reads `resolvedTheme` from the theme
context, renders the brand title, then the session slot (UserButton when
signed in, SignInButton when signed out) and the theme toggle. -/
def Navbar (v : SessionView) (resolvedTheme : Theme) : Node :=
  .elem "nav" "bg-gradient-to-r from-blue-50 dark:from-ebony to-background w-full flex justify-between items-center p-4 border-b  h-24"
    (.seq
      (.elem "div" "text-3xl font-bold text-blue-600 cursor-pointer"
        (.text "Camply"))
      (.elem "div" "flex gap-4"
        (.seq (SignedIn v .userButton)
          (.seq
            (SignedOut v
              (.signInButton (.button "blue" "lg" (.text "Sign In"))))
            .toggleTheme))))

/-- src/components/HeroSection.tsx: static headline and paragraph, then the
signed-out-gated SignUpButton call-to-action. -/
def HeroSection (v : SessionView) : Node :=
  .elem "div" " p-4 flex flex-col gap-4 justify-center items-center"
    (.seq
      (.elem "div" "text-2xl text-center md:text-4xl lg:text-6xl font-bold bg-gradient-to-r from-blue-800 to-blue-500 bg-clip-text text-transparent"
        (.text "Transform Your Approach to Campaign Management"))
      (.seq
        (.elem "p" "md:w-sm text-sm text-center text-jet  dark:text-gray-300 md:text-xl lg:text-2xl"
          (.text "Revolutionize the way you manage tasks, boost productivity, and achieve seamless collaboration with innovative project management strategies."))
        (SignedOut v
          (.signUpButton (.button "blue" "lg" (.text "Get Started"))))))

/-- src/unnamed/part_003 (the Home page): wraps the HeroSection. -/
def Home (v : SessionView) : Node :=
  .elem "div" "bg-radial from-background to-blue-50 dark:from-ebony dark:to-background flex flex-col min-h-[32rem] items-center justify-center w-full"
    (HeroSection v)

/-- Replaces every session-dependent widget (the signed-in/signed-out slot
contents) by an empty slot, leaving the rest of the markup intact. -/
def scrubSession : Node → Node
  | .userButton => .nil
  | .signInButton _ => .nil
  | .signUpButton _ => .nil
  | .text s => .text s
  | .elem t c child => .elem t c (scrubSession child)
  | .seq a b => .seq (scrubSession a) (scrubSession b)
  | .nil => .nil
  | .toggleTheme => .toggleTheme
  | .button v s child => .button v s (scrubSession child)

/-- Element tree at the provider-composition level: the two providers,
plain elements, leaf components, and sibling adjacency. -/
inductive ETree where
  | themeProvider (child : ETree)
  | clerkProvider (child : ETree)
  | elemT (tag : String) (child : ETree)
  | comp (name : String)
  | seqT (a b : ETree)
deriving DecidableEq, Repr

/-- src/unnamed/part_000 (AppProviders.tsx): ThemeProvider wrapping
ClerkProvider wrapping the children. -/
def AppProviders (children : ETree) : ETree :=
  .themeProvider (.clerkProvider children)

/-- src/app/layout.tsx (RootLayout): html → body → AppProviders around the
Navbar and the page content. -/
def RootLayout (children : ETree) : ETree :=
  .elemT "html" (.elemT "body"
    (AppProviders (.seqT (.comp "Navbar") (.elemT "div" children))))

/-- Leaf components of the tree, each tagged with whether the theme context
and the session context are available at that leaf (a provider makes its
context available to everything below it). -/
def leavesWith : ETree → Bool → Bool → List (String × Bool × Bool)
  | .themeProvider c, _, se => leavesWith c true se
  | .clerkProvider c, th, _ => leavesWith c th true
  | .elemT _ c, th, se => leavesWith c th se
  | .comp n, th, se => [(n, th, se)]
  | .seqT a b, th, se => leavesWith a th se ++ leavesWith b th se

theorem leavesWith_true_true (t : ETree) :
    ∀ e ∈ leavesWith t true true, e.2.1 = true ∧ e.2.2 = true := by
  induction t with
  | themeProvider c ih => exact ih
  | clerkProvider c ih => exact ih
  | elemT tag c ih => exact ih
  | comp n =>
    intro e he
    simp [leavesWith] at he
    subst he
    exact ⟨rfl, rfl⟩
  | seqT a b iha ihb =>
    intro e he
    rw [leavesWith, List.mem_append] at he
    rcases he with h | h
    · exact iha e h
    · exact ihb e h

/-! ## Claim theorems -/

/-- C1: for every session view, each session-aware element renders exactly
one of the signed-in and signed-out views: in the Navbar's slot exactly one
of UserButton and SignInButton appears (never both, never neither), and in
the Hero's slot the sign-up call-to-action appears exactly when signed out
(its signed-in view being the empty slot). -/
theorem navbar_hero_exactly_one_session_view (v : SessionView) (t : Theme) :
    Node.count isUserButton (Navbar v t) + Node.count isSignInButton (Navbar v t) = 1 ∧
    Node.count isUserButton (Navbar v t) * Node.count isSignInButton (Navbar v t) = 0 ∧
    Node.count isSignUpButton (HeroSection v) = (if v = .signedOut then 1 else 0) := by
  cases v <;> exact ⟨rfl, rfl, rfl⟩

/-- C2: the Navbar renders the UserButton iff the session view is signed in,
and the SignInButton iff it is signed out. -/
theorem navbar_session_slot (v : SessionView) (t : Theme) :
    Node.count isUserButton (Navbar v t) = (if v = .signedIn then 1 else 0) ∧
    Node.count isSignInButton (Navbar v t) = (if v = .signedOut then 1 else 0) ∧
    (Node.count isUserButton (Navbar v t) = 1 ↔ v = .signedIn) ∧
    (Node.count isSignInButton (Navbar v t) = 1 ↔ v = .signedOut) := by
  cases v
  · exact ⟨rfl, rfl, ⟨fun _ => rfl, fun _ => rfl⟩, ⟨(fun h => nomatch h), (fun h => nomatch h)⟩⟩
  · exact ⟨rfl, rfl, ⟨(fun h => nomatch h), (fun h => nomatch h)⟩, ⟨fun _ => rfl, fun _ => rfl⟩⟩

/-- C3: for every session view, the HeroSection renders its headline and its
paragraph, and renders the SignUpButton call-to-action iff signed out. -/
theorem hero_copy_and_cta (v : SessionView) :
    Node.count (isText "Transform Your Approach to Campaign Management") (HeroSection v) = 1 ∧
    Node.count (isText "Revolutionize the way you manage tasks, boost productivity, and achieve seamless collaboration with innovative project management strategies.") (HeroSection v) = 1 ∧
    Node.count isSignUpButton (HeroSection v) = (if v = .signedOut then 1 else 0) := by
  cases v <;> exact ⟨rfl, rfl, rfl⟩

/-- C4: when the session check fails (timeout, unreachable service) the view
is signed out: the Navbar renders the SignInButton and not the UserButton,
and no authenticated UI (UserButton) appears anywhere on the page. -/
theorem navbar_fails_closed (t : Theme) :
    sessionView .failed = .signedOut ∧
    Node.count isSignInButton (Navbar (sessionView .failed) t) = 1 ∧
    Node.count isUserButton (Navbar (sessionView .failed) t) = 0 ∧
    Node.count isUserButton (Home (sessionView .failed)) = 0 := by
  exact ⟨rfl, rfl, rfl, rfl⟩

/-- C5: resolution is the identity on the concrete modes light and dark,
whatever the host system scheme is. -/
theorem resolveTheme_id_on_concrete (sys : Theme) :
    resolveTheme .light sys = .light ∧ resolveTheme .dark sys = .dark :=
  ⟨rfl, rfl⟩

/-- C6: any mode value outside light/dark/system parses to system, so
setting an invalid mode resolves exactly as mode = system does. -/
theorem invalid_mode_falls_back_to_system (s : String) (sys : Theme)
    (h1 : s ≠ "light") (h2 : s ≠ "dark") (_h3 : s ≠ "system") :
    parseThemeMode s = .system ∧
    resolveTheme (parseThemeMode s) sys = resolveTheme .system sys := by
  have hp : parseThemeMode s = .system := by
    unfold parseThemeMode
    rw [if_neg h1, if_neg h2]
  exact ⟨hp, by rw [hp]⟩

theorem invalid_mode_falls_back_to_system_witness :
    parseThemeMode "purple" = .system ∧
    resolveTheme (parseThemeMode "purple") .dark = resolveTheme .system .dark :=
  invalid_mode_falls_back_to_system "purple" .dark (by decide) (by decide) (by decide)

/-- C7: the RootLayout mounts AppProviders (ThemeProvider around
ClerkProvider) above the Navbar and the page content, so every leaf
component below the root layout has both the theme context and the session
context available. -/
theorem rootLayout_contexts_available (children : ETree) :
    ∀ e ∈ leavesWith (RootLayout children) false false, e.2.1 = true ∧ e.2.2 = true := by
  intro e he
  have : leavesWith (RootLayout children) false false =
      leavesWith (.seqT (.comp "Navbar") (.elemT "div" children)) true true := rfl
  rw [this] at he
  exact leavesWith_true_true _ e he

theorem rootLayout_contexts_available_witness :
    (("Navbar", true, true) : String × Bool × Bool).2.1 = true ∧
    (("Navbar", true, true) : String × Bool × Bool).2.2 = true :=
  rootLayout_contexts_available (.comp "Home") ("Navbar", true, true) (by decide)

/-- C8: whenever the host system scheme is a concrete value (light or dark),
the resolved theme is a concrete value, light or dark, and never system,
for every chosen mode including system. -/
theorem resolveTheme_always_concrete (mode sys : Theme)
    (h : sys = .light ∨ sys = .dark) :
    (resolveTheme mode sys = .light ∨ resolveTheme mode sys = .dark) ∧
    resolveTheme mode sys ≠ .system := by
  cases mode <;> rcases h with h | h <;> subst h <;> exact ⟨by first | exact Or.inl rfl | exact Or.inr rfl, by decide⟩

theorem resolveTheme_always_concrete_witness :
    (resolveTheme .system .dark = .light ∨ resolveTheme .system .dark = .dark) ∧
    resolveTheme .system .dark ≠ .system :=
  resolveTheme_always_concrete .system .dark (Or.inr rfl)

/-- C9: for a fixed session view the Navbar's markup is identical under any
two theme values: although it reads resolvedTheme from the theme context,
its output does not depend on it. -/
theorem navbar_ignores_theme (v : SessionView) (t1 t2 : Theme) :
    Navbar v t1 = Navbar v t2 := rfl

/-- C10: for every session state (verified signed in, verified signed out,
or failed/unknown) the Navbar renders the theme toggle and the brand title,
and changing the session state changes only the session slot: after erasing
the session widgets the markup is the same for any two session states. -/
theorem navbar_session_frame (r1 r2 : SessionResult) (t1 t2 : Theme) :
    Node.count isToggleTheme (Navbar (sessionView r1) t1) = 1 ∧
    Node.count (isText "Camply") (Navbar (sessionView r1) t1) = 1 ∧
    scrubSession (Navbar (sessionView r1) t1) = scrubSession (Navbar (sessionView r2) t2) := by
  rcases r1 with ⟨_ | _⟩ | _ <;> rcases r2 with ⟨_ | _⟩ | _ <;> exact ⟨rfl, rfl, rfl⟩
